import Mathlib

/-!
Shallow embedding of `docker-machine-driver-kubernetes` (src/driver.go).

The driver maps docker-machine lifecycle calls onto a Kubernetes backend:
each logical host is one pod plus one secret, both named after the machine.
External effects (kubeconfig loading, file reads, the apply client, the
point lookup and the watch stream) are modelled as environment records
holding the results those calls return; the backend object store is a list
of (kind, namespace, name) records, and the watch stream is the list of
events delivered on the result channel before it closed.  Control flow,
error propagation and field updates follow src/driver.go line by line.
-/

deriving instance DecidableEq for Except

namespace KubeDriver

/-- Errors returned by the Kubernetes client and by the driver itself.
`notFound` is the class recognised by `apierrors.IsNotFound`; every other
error is `other`. -/
inductive KErr where
  | notFound (msg : String)
  | other (msg : String)
deriving DecidableEq

/-- Pod phases from `corev1.PodPhase` (driver.go switches on Pending and
Running and lumps the rest into a default arm). -/
inductive PodPhase where
  | Pending
  | Running
  | Succeeded
  | Failed
  | Unknown
deriving DecidableEq

/-- The slice of `corev1.Pod` the driver reads: its name
(`metadata.name`), its address (`status.podIP`) and its phase
(`status.phase`). -/
structure Pod where
  name : String
  podIP : String
  phase : PodPhase
deriving DecidableEq

/-- Host states from `libmachine/state` used by driver.go: `None` (absent),
`Starting`, `Running`, `Stopped`. -/
inductive MachineState where
  | None
  | Starting
  | Running
  | Stopped
deriving DecidableEq

/-- One event delivered on the watch result channel.  The driver type
asserts `event.Object.(*corev1.Pod)`; events whose object is not a pod
(e.g. stream status objects) fail the assertion and are skipped. -/
inductive WatchEvent where
  | podEvent (p : Pod)
  | nonPodEvent
deriving DecidableEq

/-- The name of the pod an event is about (empty for non-pod events);
used only to state properties about event streams. -/
def eventName : WatchEvent → String
  | .podEvent p => p.name
  | .nonPodEvent => ""

/-- The address carried by an event (empty for non-pod events). -/
def eventIP : WatchEvent → String
  | .podEvent p => p.podIP
  | .nonPodEvent => ""

/-- Driver state: the embedded `drivers.BaseDriver` fields the code touches
(`MachineName`, `IPAddress`, `SSHUser`, `StorePath`) together with the
kubernetes-specific fields `Userdata`, `Image`, `kubernetesToken`. -/
structure Driver where
  machineName : String
  image : String
  userdata : String
  kubernetesToken : String
  ipAddress : String
  sshUser : String
  storePath : String
deriving DecidableEq

/-- Kinds of backend objects the driver manages. -/
inductive ObjKind where
  | podKind
  | secretKind
deriving DecidableEq

/-- Identity of one object in the backend store: kind, namespace and name.
Wrangler's apply keys ownership on exactly this identity. -/
structure BObj where
  kind : ObjKind
  ns : String
  name : String
deriving DecidableEq

/-- The workload object built by `podAndSecret`: identity plus the fields
driver.go sets explicitly (hostname = name, restart policy Never, the five
fixed container ports).  Volume mounts and resource limits are constants in
the source and carry no claim-relevant data. -/
structure PodSpecObj where
  ns : String
  name : String
  image : String
  hostname : String
  restartPolicy : String
  containerPorts : List Nat
deriving DecidableEq

/-- The config object built by `podAndSecret`: identity plus the two named
byte blobs. -/
structure SecretObj where
  ns : String
  name : String
  userData : String
  metaData : String
deriving DecidableEq

/-- driver.go `podAndSecret`: builds the desired pod and secret for a host.
Both are named `name` in `ns`; the pod's hostname is the machine name, its
restart policy is Never and it exposes ports 22, 6443, 9435, 443, 80; the
secret carries the `user-data` and `meta-data` blobs. -/
def podAndSecret (ns name image : String) (userData metaData : String) :
    PodSpecObj × SecretObj :=
  ({ ns := ns, name := name, image := image, hostname := name,
     restartPolicy := "Never", containerPorts := [22, 6443, 9435, 443, 80] },
   { ns := ns, name := name, userData := userData, metaData := metaData })

/-- Backend identity of a built pod object. -/
def podObjOf (p : PodSpecObj) : BObj :=
  { kind := .podKind, ns := p.ns, name := p.name }

/-- Backend identity of a built secret object. -/
def secretObjOf (s : SecretObj) : BObj :=
  { kind := .secretKind, ns := s.ns, name := s.name }

/-- An object is owned by the apply session for machine `name` in `ns`:
wrangler's `WithOwner(pod)` + `WithListerNamespace` scope ownership to the
objects this driver applied, which are exactly those named `name` in `ns`. -/
def ownedBy (ns name : String) (o : BObj) : Bool :=
  o.ns == ns && o.name == name

/-- Declarative apply: make the owned part of the backend match `desired`,
deleting previously owned objects not in the set and leaving everything not
owned by this session untouched. -/
def converge (ns name : String) (desired : List BObj) (b : List BObj) : List BObj :=
  b.filter (fun o => !(ownedBy ns name o)) ++ desired

/-- `ApplyObjects()` with an empty set: delete all owned objects. -/
def pruneOwned (ns name : String) (b : List BObj) : List BObj :=
  converge ns name [] b

/-- Outcome of `base64decodefile`'s effectful steps: the base64 decode of
the token can fail, creating `/.kube/config` can fail, or both succeed.
(A failed `Write`/`Sync` panics in the source and never returns, so it has
no returned-error outcome.) -/
inductive B64Outcome where
  | decodeErr (msg : String)
  | createErr (msg : String)
  | ok
deriving DecidableEq

/-- driver.go `base64decodefile`: decode the token and write it to
`/.kube/config`, returning the decode or file-creation error. -/
def base64decodefile (o : B64Outcome) : Except KErr Unit :=
  match o with
  | .decodeErr m => .error (.other ("Cannot Decode base64 file " ++ m))
  | .createErr m => .error (.other ("cannot create file " ++ m))
  | .ok => .ok ()

/-- Results of the external calls made by `getClient`: the
`base64decodefile` outcome, namespace resolution from the loaded
kubeconfig, client-config building, and the two client constructors. -/
structure ClientEnv where
  b64 : B64Outcome
  nsResult : Except KErr String
  clientConfigResult : Except KErr Unit
  newForConfigResult : Except KErr Unit
  applyNewResult : Except KErr Unit
deriving DecidableEq

/-- driver.go `getClient`: writes the kubeconfig (the returned error of
`base64decodefile` is discarded by the source — the call's result is not
inspected), then resolves the namespace, the client config and the two
clients, propagating each of those errors.  Returns the namespace; the
client and apply handles are abstracted away. -/
def getClient (e : ClientEnv) : Except KErr String :=
  let _ := base64decodefile e.b64
  match e.nsResult with
  | .error err => .error err
  | .ok ns =>
    match e.clientConfigResult with
    | .error err => .error err
    | .ok _ =>
      match e.newForConfigResult with
      | .error err => .error err
      | .ok _ =>
        match e.applyNewResult with
        | .error err => .error err
        | .ok _ => .ok ns

/-- The loop body of the two watch-consumption loops in driver.go: starting
from `ip`, fold over the delivered events; a pod event with a non-empty
`status.podIP` overwrites the current value (and triggers `w.Stop()`, which
closes the channel after any still-buffered events), every other event is
skipped. -/
def scanIP (ip : String) : List WatchEvent → String
  | [] => ip
  | ev :: rest =>
    match ev with
    | .podEvent p => if p.podIP ≠ "" then scanIP p.podIP rest else scanIP ip rest
    | .nonPodEvent => scanIP ip rest

/-- Server-side effect of the `metadata.name=<name>` field selector used by
`getWaitForIP`'s watch: only events for the pod with that name are
delivered (stream-level non-pod objects are not name-filtered). -/
def filterByName (name : String) (events : List WatchEvent) : List WatchEvent :=
  events.filter (fun ev =>
    match ev with
    | .podEvent p => p.name == name
    | .nonPodEvent => true)

/-- Results of the external calls made by `getWaitForIP`: the point lookup
(`Pods.Get`), opening the watch, and the namespace event stream as
delivered before the channel closed (`events` is the stream BEFORE any
field-selector filtering, so the same environment can feed a filtered and
an unfiltered watch). -/
structure WaitEnv where
  lookup : Except KErr Pod
  watchOpen : Except KErr Unit
  events : List WatchEvent
deriving DecidableEq

/-- Instrumented result of `getWaitForIP`: the returned value together with
whether the watch stream was ever opened. -/
structure WaitOutcome where
  result : Except KErr String
  watchOpened : Bool
deriving DecidableEq

/-- driver.go `getWaitForIP`, instrumented with a watch-opened flag: point
lookup first (any lookup error is returned as-is, the watch is never
opened); then a watch filtered to `metadata.name=<name>`; the loop keeps
the last non-empty address delivered; if the stream closes with none, the
"failed to get IP" error is returned. -/
def getWaitForIPRun (e : WaitEnv) (ns name : String) : WaitOutcome :=
  match e.lookup with
  | .error err => { result := .error err, watchOpened := false }
  | .ok _ =>
    match e.watchOpen with
    | .error err => { result := .error err, watchOpened := true }
    | .ok _ =>
      let ip := scanIP "" (filterByName name e.events)
      if ip = "" then
        { result := .error (.other ("failed to get IP of " ++ ns ++ "/" ++ name)),
          watchOpened := true }
      else
        { result := .ok ip, watchOpened := true }

/-- driver.go `getWaitForIP`: the value it returns. -/
def getWaitForIP (e : WaitEnv) (ns name : String) : Except KErr String :=
  (getWaitForIPRun e ns name).result

/-- Environment for `GetIP`: the client construction and the wait. -/
structure GetIPEnv where
  clientEnv : ClientEnv
  waitEnv : WaitEnv
deriving DecidableEq

/-- driver.go `GetIP`: builds a client (propagating its error) and runs
`getWaitForIP` for the machine name under a five-minute context.  The
cached `d.IPAddress` is neither read nor written. -/
def GetIP (e : GetIPEnv) (d : Driver) : Except KErr String :=
  match getClient e.clientEnv with
  | .error err => .error err
  | .ok ns => getWaitForIP e.waitEnv ns d.machineName

/-- Go `net.JoinHostPort`: `host:port`, but `[host]:port` when the host
contains a colon byte (as IPv6 literals do). -/
def joinHostPort (host port : String) : String :=
  if host.data.contains ':' then "[" ++ host ++ "]:" ++ port
  else host ++ ":" ++ port

/-- driver.go `GetURL`: `GetIP`, then `tcp://` ++ JoinHostPort(ip, 2376);
errors from `GetIP` are returned unchanged. -/
def GetURL (e : GetIPEnv) (d : Driver) : Except KErr String :=
  match GetIP e d with
  | .error err => .error err
  | .ok ip => .ok ("tcp://" ++ joinHostPort ip "2376")

/-- Environment for `GetState`: the client construction and the point
lookup of the machine's pod. -/
structure GetStateEnv where
  clientEnv : ClientEnv
  lookup : Except KErr Pod
deriving DecidableEq

/-- Go `apierrors.IsNotFound`. -/
def isNotFound : KErr → Bool
  | .notFound _ => true
  | .other _ => false

/-- driver.go `GetState`, returning the `(state.State, error)` pair: client
errors yield `(None, err)`; a not-found lookup yields `(None, nil)`; any
other lookup error yields `(None, err)`; otherwise the pod phase is mapped
Pending ↦ Starting, Running ↦ Running, default ↦ Stopped. -/
def GetState (e : GetStateEnv) (d : Driver) : MachineState × Option KErr :=
  match getClient e.clientEnv with
  | .error err => (MachineState.None, some err)
  | .ok _ =>
    match e.lookup with
    | .error err =>
      if isNotFound err then (MachineState.None, none)
      else (MachineState.None, some err)
    | .ok pod =>
      match pod.phase with
      | .Pending => (MachineState.Starting, none)
      | .Running => (MachineState.Running, none)
      | _ => (MachineState.Stopped, none)

/-- Result of a state-changing lifecycle call: the driver state, the
backend object store, and the returned error. -/
structure OpResult where
  drv : Driver
  backend : List BObj
  res : Except KErr Unit
deriving DecidableEq

/-- Environment for `Stop`: the client construction and the outcome of the
prune apply (`ApplyObjects()` with an empty set). -/
structure StopEnv where
  clientEnv : ClientEnv
  applyErr : Option KErr
deriving DecidableEq

/-- driver.go `Stop`: build a client; configure apply with the deletion
sentinel `podAndSecret(ns, name, "", nil, nil)`; `ApplyObjects()` with no
objects converges the owned set to empty (deleting the pod and secret);
only then is `d.IPAddress` cleared.  Errors leave driver and backend
untouched. -/
def Stop (e : StopEnv) (d : Driver) (b : List BObj) : OpResult :=
  match getClient e.clientEnv with
  | .error err => { drv := d, backend := b, res := .error err }
  | .ok ns =>
    let _ := podAndSecret ns d.machineName "" "" ""
    match e.applyErr with
    | some err => { drv := d, backend := b, res := .error err }
    | none =>
      { drv := { d with ipAddress := "" },
        backend := pruneOwned ns d.machineName b,
        res := .ok () }

/-- Environment for `Start`: the embedded `Stop`'s environment, the two
file reads (public key, optional user data), the client construction, the
apply outcome, and the watch (opened WITHOUT a field selector, so `events`
is consumed unfiltered).  `json.Marshal` of the metadata map cannot fail
and is modelled as a total function. -/
structure StartEnv where
  stopEnv : StopEnv
  pubKeyRead : Except KErr String
  userdataRead : Except KErr String
  clientEnv : ClientEnv
  applyErr : Option KErr
  watchOpen : Except KErr Unit
  events : List WatchEvent
deriving DecidableEq

/-- The `json.Marshal` of the cloud-init metadata map holding the public
key (abstracted: Go escaping of the key text is not reproduced). -/
def marshalMetadata (pubKey : String) : String :=
  "\x7b\"public-keys\":[\"" ++ pubKey ++ "\"]\x7d"

/-- driver.go `Start`: stop first; read the public key and, when
`d.Userdata` is set, the user-data file; build the client; apply the pod
and secret built by `podAndSecret`; open an UNFILTERED namespace-wide pod
watch and keep the last non-empty `status.podIP` of ANY delivered pod event
in `d.IPAddress`; fail with "failed to get IP" if the stream closes while
`d.IPAddress` is still empty. -/
def Start (e : StartEnv) (d : Driver) (b : List BObj) : OpResult :=
  let r := Stop e.stopEnv d b
  match r.res with
  | .error err => { drv := r.drv, backend := r.backend, res := .error err }
  | .ok _ =>
    match e.pubKeyRead with
    | .error err => { drv := r.drv, backend := r.backend, res := .error err }
    | .ok pubKey =>
      let userdataRes : Except KErr String :=
        if r.drv.userdata ≠ "" then e.userdataRead else .ok ""
      match userdataRes with
      | .error err => { drv := r.drv, backend := r.backend, res := .error err }
      | .ok userData =>
        match getClient e.clientEnv with
        | .error err => { drv := r.drv, backend := r.backend, res := .error err }
        | .ok ns =>
          let ps := podAndSecret ns r.drv.machineName r.drv.image userData
            (marshalMetadata pubKey)
          match e.applyErr with
          | some err => { drv := r.drv, backend := r.backend, res := .error err }
          | none =>
            let b2 := converge ns r.drv.machineName
              [podObjOf ps.1, secretObjOf ps.2] r.backend
            match e.watchOpen with
            | .error err => { drv := r.drv, backend := b2, res := .error err }
            | .ok _ =>
              let ip := scanIP r.drv.ipAddress e.events
              let d2 := { r.drv with ipAddress := ip }
              if ip = "" then
                { drv := d2, backend := b2,
                  res := .error (.other ("failed to get IP of " ++ ns ++ "/"
                    ++ r.drv.machineName)) }
              else
                { drv := d2, backend := b2, res := .ok () }

/-- Environment for `Create`: the SSH keypair generation and the embedded
`Start`'s environment. -/
structure CreateEnv where
  sshKeyGen : Except KErr Unit
  startEnv : StartEnv
deriving DecidableEq

/-- driver.go `Create`: generate the SSH keypair at the store path, then
`return d.Start()`. -/
def Create (e : CreateEnv) (d : Driver) (b : List BObj) : OpResult :=
  match e.sshKeyGen with
  | .error err => { drv := d, backend := b, res := .error err }
  | .ok _ => Start e.startEnv d b

/-- driver.go `Restart`: stop, then start. -/
def Restart (se : StopEnv) (e : StartEnv) (d : Driver) (b : List BObj) : OpResult :=
  let r := Stop se d b
  match r.res with
  | .error err => { drv := r.drv, backend := r.backend, res := .error err }
  | .ok _ => Start e r.drv r.backend

/-- driver.go `Kill`: alias for `Stop`. -/
def Kill (e : StopEnv) (d : Driver) (b : List BObj) : OpResult := Stop e d b

/-- driver.go `Remove`: alias for `Stop`. -/
def Remove (e : StopEnv) (d : Driver) (b : List BObj) : OpResult := Stop e d b

/-- Modelled from the spec: the phase mapping of §4.4 / claim C4
(pending ↦ Starting, running ↦ Running, every other phase ↦ Stopped),
stated as a total function to be compared with `GetState`. -/
def specPhaseMap : PodPhase → MachineState
  | .Pending => MachineState.Starting
  | .Running => MachineState.Running
  | _ => MachineState.Stopped

/-! ### Concrete fixtures used by witnesses and counterexamples -/

/-- A fully successful client environment resolving namespace "default". -/
def clientEnvOk : ClientEnv :=
  { b64 := .ok, nsResult := .ok "default", clientConfigResult := .ok (),
    newForConfigResult := .ok (), applyNewResult := .ok () }

/-- A driver for machine "demo" with no cached address. -/
def demoDriver : Driver :=
  { machineName := "demo", image := "img:v1", userdata := "",
    kubernetesToken := "dG9rZW4=", ipAddress := "", sshUser := "sles",
    storePath := "/store" }

/-- The "demo" pod reported running with address 10.0.0.5. -/
def demoPodRunning : Pod := { name := "demo", podIP := "10.0.0.5", phase := .Running }

/-- A stop environment where the client builds and the prune apply succeeds. -/
def stopEnvOk : StopEnv := { clientEnv := clientEnvOk, applyErr := none }

/-- A wait environment: the "demo" pod exists (still pending, no address at
lookup time) and the stream delivers one event carrying its address. -/
def waitEnvDemo : WaitEnv :=
  { lookup := .ok { name := "demo", podIP := "", phase := .Pending },
    watchOpen := .ok (),
    events := [.podEvent demoPodRunning] }

/-- A wait environment whose point lookup fails with not-found. -/
def waitEnvAbsent : WaitEnv :=
  { lookup := .error (.notFound "pods \"demo\" not found"),
    watchOpen := .ok (), events := [] }

/-! ### Helper lemmas -/

/-- If every delivered event carries an empty address, the watch loop never
updates its accumulator. -/
theorem scanIP_all_empty (ip : String) (evs : List WatchEvent)
    (h : ∀ ev ∈ evs, eventIP ev = "") : scanIP ip evs = ip := by
  induction evs generalizing ip with
  | nil => rfl
  | cons ev rest ih =>
    have hrest : ∀ e ∈ rest, eventIP e = "" :=
      fun e he => h e (List.mem_cons_of_mem _ he)
    cases ev with
    | podEvent p =>
      have hev : p.podIP = "" := h (.podEvent p) (List.mem_cons_self _ _)
      simp [scanIP, hev, ih ip hrest]
    | nonPodEvent => simp [scanIP, ih ip hrest]

/-! ### Claims -/

/-- Claim C3: for every driver state, a `Stop` call that returns without
error leaves the cached `IPAddress` empty, regardless of the state before
the call. -/
theorem Stop_clears_cached_address (e : StopEnv) (d : Driver) (b : List BObj)
    (h : (Stop e d b).res = .ok ()) : (Stop e d b).drv.ipAddress = "" := by
  unfold Stop at h ⊢
  cases hc : getClient e.clientEnv with
  | error err => simp_all
  | ok ns =>
    cases ha : e.applyErr with
    | some err => simp_all
    | none => simp_all

/-- Witness for C3 at a concrete input: stopping a driver whose cached
address was "10.0.0.5" leaves the cache empty. -/
theorem Stop_clears_cached_address_witness :
    (Stop stopEnvOk { demoDriver with ipAddress := "10.0.0.5" } []).drv.ipAddress = "" :=
  Stop_clears_cached_address stopEnvOk { demoDriver with ipAddress := "10.0.0.5" } []
    (by rfl)

/-- Claim C4: `GetState` maps the pod phase totally — pending yields
Starting, running yields Running, every other phase yields Stopped (the
spec-side map `specPhaseMap`); a not-found lookup yields `(None, nil)`;
every other lookup error is returned to the caller. -/
theorem GetState_total_phase_map (e : GetStateEnv) (d : Driver) (ns : String)
    (hc : getClient e.clientEnv = .ok ns) :
    (∀ p, e.lookup = .ok p → GetState e d = (specPhaseMap p.phase, none)) ∧
    (∀ m, e.lookup = .error (.notFound m) → GetState e d = (MachineState.None, none)) ∧
    (∀ m, e.lookup = .error (.other m) →
      GetState e d = (MachineState.None, some (.other m))) := by
  refine ⟨fun p hp => ?_, fun m hm => ?_, fun m hm => ?_⟩
  · unfold GetState
    rw [hc, hp]
    cases hph : p.phase <;> simp [specPhaseMap, hph]
  · unfold GetState
    rw [hc, hm]
    simp [isNotFound]
  · unfold GetState
    rw [hc, hm]
    simp [isNotFound]

/-- Witness for C4 at a concrete input: a running "demo" pod is reported
as Running with no error. -/
theorem GetState_total_phase_map_witness :
    GetState { clientEnv := clientEnvOk, lookup := .ok demoPodRunning } demoDriver
      = (MachineState.Running, none) :=
  (GetState_total_phase_map { clientEnv := clientEnvOk, lookup := .ok demoPodRunning }
    demoDriver "default" (by rfl)).1 demoPodRunning (by rfl)

/-- Claim C5: `getWaitForIP` never returns a nil error together with an
empty address — a success result is non-empty, and if every delivered
event carries an empty address the call does not succeed at all. -/
theorem getWaitForIP_never_empty_success (e : WaitEnv) (ns name : String) :
    (∀ ip, getWaitForIP e ns name = .ok ip → ip ≠ "") ∧
    ((∀ ev ∈ e.events, eventIP ev = "") → ∀ ip, getWaitForIP e ns name ≠ .ok ip) := by
  constructor
  · intro ip h
    unfold getWaitForIP getWaitForIPRun at h
    cases hl : e.lookup <;> rw [hl] at h <;> simp at h
    cases hw : e.watchOpen <;> rw [hw] at h <;> simp at h
    by_cases hip : scanIP "" (filterByName name e.events) = "" <;> simp [hip] at h
    rw [← h]
    exact hip
  · intro hall ip h
    unfold getWaitForIP getWaitForIPRun at h
    cases hl : e.lookup <;> rw [hl] at h <;> simp at h
    cases hw : e.watchOpen <;> rw [hw] at h <;> simp at h
    have hfe : ∀ ev ∈ filterByName name e.events, eventIP ev = "" :=
      fun ev hev => hall ev (List.mem_of_mem_filter hev)
    rw [scanIP_all_empty _ _ hfe] at h
    simp at h

/-- Witness for C5 at a concrete input: the wait over a stream delivering
the address 10.0.0.5 succeeds with that (non-empty) address. -/
theorem getWaitForIP_never_empty_success_witness :
    getWaitForIP waitEnvDemo "default" "demo" = .ok "10.0.0.5" ∧
      ("10.0.0.5" : String) ≠ "" :=
  ⟨by rfl,
   (getWaitForIP_never_empty_success waitEnvDemo "default" "demo").1 "10.0.0.5" (by rfl)⟩

/-- Claim C6: when the point lookup fails with a not-found error,
`getWaitForIP` returns exactly that error (in particular not the
"failed to get IP" timeout error) and never opens the event stream. -/
theorem getWaitForIP_absent_immediate (e : WaitEnv) (ns name m : String)
    (h : e.lookup = .error (.notFound m)) :
    (getWaitForIPRun e ns name).result = .error (.notFound m) ∧
    (getWaitForIPRun e ns name).watchOpened = false := by
  unfold getWaitForIPRun
  rw [h]
  exact ⟨rfl, rfl⟩

/-- Witness for C6 at a concrete input: the not-found lookup error is
surfaced unchanged and the watch is never opened. -/
theorem getWaitForIP_absent_immediate_witness :
    (getWaitForIPRun waitEnvAbsent "default" "demo").result
        = .error (.notFound "pods \"demo\" not found") ∧
    (getWaitForIPRun waitEnvAbsent "default" "demo").watchOpened = false :=
  getWaitForIP_absent_immediate waitEnvAbsent "default" "demo"
    "pods \"demo\" not found" (by rfl)

/-- A GetIP environment whose point lookup fails with not-found. -/
def getIPEnvAbsent : GetIPEnv := { clientEnv := clientEnvOk, waitEnv := waitEnvAbsent }

/-- A GetIP environment where the backend delivers the demo pod's address. -/
def getIPEnvDemo : GetIPEnv := { clientEnv := clientEnvOk, waitEnv := waitEnvDemo }

/-- Counterexample to claim C7: a driver with the non-empty cached address
"10.0.0.5" does NOT get it returned — `GetIP` contacts the backend anyway
and surfaces the lookup's not-found error instead of the cache. -/
theorem GetIP_cached_address_cex :
    ({ demoDriver with ipAddress := "10.0.0.5" } : Driver).ipAddress = "10.0.0.5" ∧
    GetIP getIPEnvAbsent { demoDriver with ipAddress := "10.0.0.5" }
      = .error (.notFound "pods \"demo\" not found") :=
  ⟨rfl, rfl⟩

/-- Claim C7 amended: `GetIP` ignores the cached address entirely — its
result is independent of `IPAddress`; it always builds a client and runs
`getWaitForIP` under its own deadline. -/
theorem GetIP_ignores_cache (e : GetIPEnv) (d : Driver) (a : String) :
    GetIP e { d with ipAddress := a } = GetIP e d := rfl

/-- A client environment whose credential blob is not valid base64: the
decode inside `base64decodefile` fails, everything else succeeds. -/
def clientEnvBadToken : ClientEnv :=
  { clientEnvOk with b64 := .decodeErr "illegal base64 data at input byte 0" }

/-- Claim C8 (code bug, evaluated at the failing input): when the token
fails to decode, `base64decodefile` returns an error, yet `getClient`
discards it and returns the namespace successfully — the credential-
decoding error is NOT propagated. -/
theorem getClient_discards_decode_error :
    base64decodefile clientEnvBadToken.b64
      = .error (.other "Cannot Decode base64 file illegal base64 data at input byte 0") ∧
    getClient clientEnvBadToken = .ok "default" :=
  ⟨rfl, rfl⟩

/-- An event stream carrying a single event for the pod "other" (a
different pod in the namespace), with address 10.9.9.9. -/
def strayEvents : List WatchEvent :=
  [.podEvent { name := "other", podIP := "10.9.9.9", phase := .Running }]

/-- A start environment for machine "demo" where every external call
succeeds and the namespace watch delivers only `strayEvents`. -/
def startEnvStray : StartEnv :=
  { stopEnv := stopEnvOk, pubKeyRead := .ok "ssh-rsa AAAA", userdataRead := .ok "",
    clientEnv := clientEnvOk, applyErr := none, watchOpen := .ok (),
    events := strayEvents }

/-- Claim C2 (code bug, evaluated at the failing input): `Start`'s watch
carries no field selector, so an event for the different pod "other"
supplies the returned address — `Start` for machine "demo" succeeds and
caches "other"'s address 10.9.9.9, while the filtered helper
`getWaitForIP` on the same stream correctly refuses it. -/
theorem Start_unfiltered_watch_bug :
    demoDriver.machineName = "demo" ∧
    (∀ ev ∈ startEnvStray.events, eventName ev = "other") ∧
    (Start startEnvStray demoDriver []).res = .ok () ∧
    (Start startEnvStray demoDriver []).drv.ipAddress = "10.9.9.9" ∧
    getWaitForIP
        { lookup := .ok { name := "demo", podIP := "", phase := .Pending },
          watchOpen := .ok (), events := strayEvents } "default" "demo"
      = .error (.other "failed to get IP of default/demo") :=
  ⟨rfl, by decide, rfl, rfl, rfl⟩

/-- A wait environment whose stream reports the IPv6 address ::1 for the
demo pod. -/
def waitEnvV6 : WaitEnv :=
  { lookup := .ok { name := "demo", podIP := "", phase := .Pending },
    watchOpen := .ok (),
    events := [.podEvent { name := "demo", podIP := "::1", phase := .Running }] }

/-- The GetIP environment built on `waitEnvV6`. -/
def getIPEnvV6 : GetIPEnv := { clientEnv := clientEnvOk, waitEnv := waitEnvV6 }

/-- Counterexample to claim C10: for the returned address "::1",
`net.JoinHostPort` brackets the host, so `GetURL` returns
"tcp://[::1]:2376", not "tcp://::1:2376". -/
theorem GetURL_bracketed_address_cex :
    GetIP getIPEnvV6 demoDriver = .ok "::1" ∧
    GetURL getIPEnvV6 demoDriver = .ok "tcp://[::1]:2376" ∧
    ("tcp://[::1]:2376" : String) ≠ "tcp://::1:2376" :=
  ⟨rfl, by decide, by decide⟩

/-- Claim C10 amended: for every address `a` returned by `GetIP`, `GetURL`
returns "tcp://" followed by JoinHostPort(a, "2376") — that is
"tcp://a:2376" when `a` contains no colon and "tcp://[a]:2376" when it
does — and it returns an error exactly when `GetIP` returns one. -/
theorem GetURL_format (e : GetIPEnv) (d : Driver) :
    (∀ a, GetIP e d = .ok a →
      GetURL e d = .ok ("tcp://" ++ joinHostPort a "2376")) ∧
    (∀ err, GetIP e d = .error err ↔ GetURL e d = .error err) := by
  constructor
  · intro a h
    unfold GetURL
    rw [h]
  · intro err
    unfold GetURL
    cases h : GetIP e d <;> simp

/-- Witness for the amended C10 at a concrete input: the colon-free
address 10.0.0.5 yields "tcp://10.0.0.5:2376". -/
theorem GetURL_format_witness :
    GetURL getIPEnvDemo demoDriver = .ok "tcp://10.0.0.5:2376" := by
  have h := (GetURL_format getIPEnvDemo demoDriver).1 "10.0.0.5" (by rfl)
  rw [h]
  decide

/-- Helper for C1: if `Start` returns success and its client resolved
namespace `ns`, the applied workload and config objects for the machine
are in the final backend store. -/
theorem Start_success_creates_objects (e : StartEnv) (d : Driver) (b : List BObj)
    (ns : String) (hc : getClient e.clientEnv = .ok ns)
    (h : (Start e d b).res = .ok ()) :
    (BObj.mk .podKind ns d.machineName) ∈ (Start e d b).backend ∧
    (BObj.mk .secretKind ns d.machineName) ∈ (Start e d b).backend := by
  unfold Start Stop at h ⊢
  rw [hc] at h ⊢
  cases h1 : getClient e.stopEnv.clientEnv <;>
  cases h2 : e.stopEnv.applyErr <;>
  cases h3 : e.pubKeyRead <;>
  cases h4 : e.userdataRead <;>
  cases h5 : e.applyErr <;>
  cases h6 : e.watchOpen <;>
  by_cases h7 : d.userdata = "" <;>
  by_cases h8 : scanIP "" e.events = "" <;>
  simp_all [converge, pruneOwned, podObjOf, secretObjOf, podAndSecret]

/-- A start environment for "demo" in which every external call succeeds
and the watch delivers the demo pod's address. -/
def startEnvDemo : StartEnv :=
  { stopEnv := stopEnvOk, pubKeyRead := .ok "ssh-rsa AAAA", userdataRead := .ok "",
    clientEnv := clientEnvOk, applyErr := none, watchOpen := .ok (),
    events := [.podEvent demoPodRunning] }

/-- A create environment whose keygen and embedded start both succeed. -/
def createEnvDemo : CreateEnv := { sshKeyGen := .ok (), startEnv := startEnvDemo }

/-- Counterexample to claim C1: with every backend call succeeding,
`Create` returns success AND the workload and config objects for "demo"
exist in the backend afterwards — `Create` reaches the backend through the
embedded `Start`, so backend objects do not first materialize on a later
start call. -/
theorem Create_contacts_backend_cex :
    (Create createEnvDemo demoDriver []).res = .ok () ∧
    (BObj.mk .podKind "default" "demo") ∈ (Create createEnvDemo demoDriver []).backend ∧
    (BObj.mk .secretKind "default" "demo") ∈ (Create createEnvDemo demoDriver []).backend := by
  refine ⟨rfl, ?_, ?_⟩ <;> decide

/-- Claim C1 amended: `Create` generates the local SSH keypair and then
invokes `Start`: a keygen failure is returned with nothing else done,
otherwise `Create` behaves exactly as `Start`, and after a successful
`Create` the workload and config objects for the host exist in the
backend. -/
theorem Create_generates_key_then_starts (e : CreateEnv) (d : Driver) (b : List BObj) :
    (∀ err, e.sshKeyGen = .error err →
      Create e d b = { drv := d, backend := b, res := .error err }) ∧
    (e.sshKeyGen = .ok () → Create e d b = Start e.startEnv d b) ∧
    (∀ ns, getClient e.startEnv.clientEnv = .ok ns → (Create e d b).res = .ok () →
      (BObj.mk .podKind ns d.machineName) ∈ (Create e d b).backend ∧
      (BObj.mk .secretKind ns d.machineName) ∈ (Create e d b).backend) := by
  refine ⟨fun err h => ?_, fun h => ?_, fun ns hc h => ?_⟩
  · unfold Create
    rw [h]
  · unfold Create
    rw [h]
  · cases hk : e.sshKeyGen with
    | error err =>
      unfold Create at h
      rw [hk] at h
      simp at h
    | ok u =>
      have hcs : Create e d b = Start e.startEnv d b := by
        unfold Create
        rw [hk]
      rw [hcs] at h ⊢
      exact Start_success_creates_objects e.startEnv d b ns hc h

/-- Witness for the amended C1 at a concrete input: the successful create
of "demo" leaves its pod and secret in the backend. -/
theorem Create_generates_key_then_starts_witness :
    (BObj.mk .podKind "default" "demo") ∈ (Create createEnvDemo demoDriver []).backend ∧
    (BObj.mk .secretKind "default" "demo") ∈ (Create createEnvDemo demoDriver []).backend :=
  (Create_generates_key_then_starts createEnvDemo demoDriver []).2.2 "default"
    (by rfl) (by rfl)

/-- Helper for C9: `Start` never changes the driver's identity and config
fields — only `IPAddress` is written. -/
theorem Start_preserves_config (e : StartEnv) (d : Driver) (b : List BObj) :
    (Start e d b).drv.machineName = d.machineName ∧
    (Start e d b).drv.image = d.image ∧
    (Start e d b).drv.userdata = d.userdata := by
  unfold Start Stop
  dsimp only
  repeat' split
  all_goals first
  | rfl
  | simp_all

/-- Helper for C9: once the embedded stop succeeds, the address `Start`
ends with is determined by the environment and the driver's config fields
alone — neither the prior cached address nor the prior backend contents
matter. -/
theorem Start_address_after_stop_ok (e : StartEnv) (ns : String)
    (h1 : getClient e.stopEnv.clientEnv = .ok ns) (h2 : e.stopEnv.applyErr = none)
    (d d' : Driver) (b b' : List BObj)
    (hm : d.machineName = d'.machineName) (hi : d.image = d'.image)
    (hu : d.userdata = d'.userdata) :
    (Start e d b).drv.ipAddress = (Start e d' b').drv.ipAddress := by
  unfold Start Stop
  rw [h1, h2]
  dsimp only
  rw [hm, hi, hu]
  repeat' split
  all_goals rfl

/-- Claim C9: `Start` is idempotent — with the environment (backend
behaviour) held fixed, running `Start` a second time on the state the
first one produced yields the same final cached address as the single
run. -/
theorem Start_idempotent_address (e : StartEnv) (d : Driver) (b : List BObj) :
    (Start e (Start e d b).drv (Start e d b).backend).drv.ipAddress
      = (Start e d b).drv.ipAddress := by
  cases h1 : getClient e.stopEnv.clientEnv with
  | error err =>
    have hfail : ∀ (x : Driver) (y : List BObj),
        Start e x y = { drv := x, backend := y, res := .error err } := by
      intro x y
      simp [Start, Stop, h1]
    simp [hfail]
  | ok ns =>
    cases h2 : e.stopEnv.applyErr with
    | some err =>
      have hfail : ∀ (x : Driver) (y : List BObj),
          Start e x y = { drv := x, backend := y, res := .error err } := by
        intro x y
        simp [Start, Stop, h1, h2]
      simp [hfail]
    | none =>
      have hcfg := Start_preserves_config e d b
      exact Start_address_after_stop_ok e ns h1 h2 _ d _ b
        hcfg.1 hcfg.2.1 hcfg.2.2

end KubeDriver
